import Mathlib

/-!
Shallow embedding of the real-estate ingestion pipeline core
(`src/lib/agents/types.ts`, `src/lib/agents/orchestrator.ts`,
`src/lib/agents/enricher.ts`).

Modelling conventions:
* JavaScript numbers are modelled as exact integers (`ℤ`) — every numeric
  value the pipeline computes with is a whole number of dollars, square
  feet or years; `Math.round (n * 1.1)` becomes `jsRoundDiv (n * 11) 10`
  (floor of `x + 1/2`, which matches JS round-half-up semantics including
  negatives, with the float literal replaced by its exact ratio).
* Nullable fields (`T | null` in TypeScript) become `Option`.
* JS truthiness on an optional number (`if (property.zestimate)`) becomes
  `jsTruthyNum` (none and `some 0` are falsy).
* Async agent invocations are abstracted by their settled outcomes: the
  orchestrator model takes the list of `Promise.allSettled` results
  (`Except String AgentResult`, `.error` being a rejected promise's
  stringified reason) as an oracle parameter, and the enrichment and
  persistence collaborators as oracle functions returning `Except`
  (an `.error` models the awaited call throwing).
* Timestamps (`new Date().toISOString()`) and durations (`Date.now()`
  differences) are nondeterministic environment values, passed in as
  parameters `ts` and `dur`.
-/

namespace RealEstate

/-- JavaScript truthiness of a nullable number: `null`/`undefined` and `0`
are falsy, every other number is truthy. -/
def jsTruthyNum : Option ℤ → Bool
  | none => false
  | some n => n != 0

/-- JavaScript `Math.round (num / den)` for `den > 0`: round half toward
positive infinity, i.e. `floor (num / den + 1/2)`, computed as a floor
division so it evaluates inside the kernel. Numeric fields are modelled
as exact integers; the float literals `1.1` and `1.3` of the source
become the exact ratios `11/10` and `13/10`. -/
def jsRoundDiv (num den : ℤ) : ℤ := Int.fdiv (2 * num + den) (2 * den)

/-- The pattern `a == null ? b : a` used by the field-merge loop
(`merged[field] == null && incoming[field] != null`), i.e. keep the first
non-null value. -/
def firstNonNull {α : Type} : Option α → Option α → Option α
  | some v, _ => some v
  | none, b => b

-- ─── normalizeAddress (src/lib/agents/types.ts) ────────────────────

/-- JS regex word character (`\w`): ASCII letter, digit or underscore. -/
def isWordChar (c : Char) : Bool := c.isAlpha || c.isDigit || c = '_'

/-- Word-boundary test (`\b`) at the position of character `c`, given
whether the preceding character (virtual non-word at string start) is a
word character. -/
def boundaryBefore (prevIsWord : Bool) (c : Char) : Bool :=
  if isWordChar c then !prevIsWord else prevIsWord

/-- Word-boundary test after a match ending in a word character: the next
character must be absent or a non-word character. -/
def boundaryAfterWord : List Char → Bool
  | [] => true
  | c :: _ => !isWordChar c

/-- Case-insensitive literal match (the unit-stripping regex carries the
`i` flag): returns the rest of the text after the keyword. -/
def stripKeywordCI : List Char → List Char → Option (List Char)
  | [], rest => some rest
  | _ :: _, [] => none
  | k :: ks, c :: cs => if c.toUpper = k then stripKeywordCI ks cs else none

/-- Case-sensitive literal match (the abbreviation regexes carry only the
`g` flag): returns the rest of the text after the keyword. -/
def stripKeywordCS : List Char → List Char → Option (List Char)
  | [], rest => some rest
  | _ :: _, [] => none
  | k :: ks, c :: cs => if c = k then stripKeywordCS ks cs else none

/-- The alternatives of the unit-stripping regex
`/\b(APT|UNIT|STE|SUITE|#)\s*\S+/gi`, in source order. No alternative is
a prefix of another, so at most one can literal-match at a position. -/
def unitKeywords : List (List Char) :=
  [['A','P','T'], ['U','N','I','T'], ['S','T','E'], ['S','U','I','T','E'], ['#']]

/-- Try to match one keyword alternative followed by `\s*\S+` at the head
of `l`; on success return the last consumed character (needed for the
next `\b` test) and the rest of the text. -/
def tryOneUnit (k : List Char) (l : List Char) : Option (Char × List Char) :=
  match stripKeywordCI k l with
  | none => none
  | some rest0 =>
    let rest1 := rest0.dropWhile Char.isWhitespace
    let run := rest1.takeWhile (fun c => !c.isWhitespace)
    match run.getLast? with
    | none => none
    | some last => some (last, rest1.drop run.length)

/-- Try the unit-designator alternatives in order at the head of `l`,
subject to the leading word boundary. -/
def tryUnitMatch (prevIsWord : Bool) (l : List Char) : Option (Char × List Char) :=
  match l with
  | [] => none
  | c :: _ =>
    if boundaryBefore prevIsWord c then
      (unitKeywords.filterMap (fun k => tryOneUnit k l)).head?
    else none

/-- Global scan for `/\b(APT|UNIT|STE|SUITE|#)\s*\S+/gi`, deleting each
match; `fuel` bounds the recursion by the text length. -/
def removeUnitsAux : Nat → Bool → List Char → List Char
  | 0, _, _ => []
  | _ + 1, _, [] => []
  | n + 1, prevW, c :: cs =>
    match tryUnitMatch prevW (c :: cs) with
    | some (last, rest) => removeUnitsAux n (isWordChar last) rest
    | none => c :: removeUnitsAux n (isWordChar c) cs

/-- `normalized.replace(/\b(APT|UNIT|STE|SUITE|#)\s*\S+/gi, '')`. -/
def removeUnits (s : String) : String :=
  ⟨removeUnitsAux s.data.length false s.data⟩

/-- Global scan for `new RegExp('\\b' + full + '\\b', 'g')`, replacing
each match by `abbr`; `fuel` bounds the recursion by the text length. -/
def replaceWordAux : Nat → Bool → List Char → List Char → List Char → List Char
  | 0, _, _, _, _ => []
  | _ + 1, _, _, _, [] => []
  | n + 1, prevW, full, abbr, c :: cs =>
    if boundaryBefore prevW c then
      match stripKeywordCS full (c :: cs) with
      | some rest =>
        if boundaryAfterWord rest then abbr ++ replaceWordAux n true full abbr rest
        else c :: replaceWordAux n (isWordChar c) full abbr cs
      | none => c :: replaceWordAux n (isWordChar c) full abbr cs
    else c :: replaceWordAux n (isWordChar c) full abbr cs

/-- Replace every word-bounded occurrence of `full` by `abbr`. -/
def replaceWord (full abbr s : String) : String :=
  ⟨replaceWordAux s.data.length false full.data abbr.data s.data⟩

/-- The `abbreviations` table of `normalizeAddress`, in source (object
insertion) order. -/
def abbreviationPairs : List (String × String) :=
  [("STREET", "ST"), ("AVENUE", "AVE"), ("BOULEVARD", "BLVD"), ("DRIVE", "DR"),
   ("LANE", "LN"), ("ROAD", "RD"), ("COURT", "CT"), ("PLACE", "PL"),
   ("CIRCLE", "CIR"), ("TERRACE", "TER"), ("HIGHWAY", "HWY"), ("PARKWAY", "PKWY"),
   ("NORTH", "N"), ("SOUTH", "S"), ("EAST", "E"), ("WEST", "W"),
   ("NORTHEAST", "NE"), ("NORTHWEST", "NW"), ("SOUTHEAST", "SE"), ("SOUTHWEST", "SW")]

/-- `normalized.replace(/\s+/g, ' ')`: collapse each maximal whitespace
run to a single space. `prevWs` records whether the previous character
was whitespace. -/
def collapseWsAux : Bool → List Char → List Char
  | _, [] => []
  | prevWs, c :: cs =>
    if c.isWhitespace then
      if prevWs then collapseWsAux true cs else ' ' :: collapseWsAux true cs
    else c :: collapseWsAux false cs

/-- Collapse whitespace runs to single spaces. -/
def collapseWs (s : String) : String := ⟨collapseWsAux false s.data⟩

/-- `normalized.replace(/[.,]+$/, '')`: drop the trailing run of periods
and commas. -/
def stripTrailingPunct (s : String) : String :=
  ⟨(s.data.reverse.dropWhile (fun c => c = '.' || c = ',')).reverse⟩

/-- JS `String.prototype.trim`: drop leading and trailing whitespace.
Defined over the character list so that proofs can evaluate it. -/
def jsTrim (s : String) : String :=
  ⟨((s.data.dropWhile Char.isWhitespace).reverse.dropWhile Char.isWhitespace).reverse⟩

/-- JS `String.prototype.toUpperCase` on ASCII text. -/
def jsUpper (s : String) : String := ⟨s.data.map Char.toUpper⟩

/-- `normalizeAddress` from `src/lib/agents/types.ts`: upper-case and
trim, strip unit/apt/suite designators, canonicalize street-suffix and
directional abbreviations, collapse whitespace, strip trailing
punctuation. Empty input (falsy string) returns the empty string. -/
def normalizeAddress (address : String) : String :=
  if address = "" then ""
  else
    let n1 := jsTrim (jsUpper address)
    let n2 := removeUnits n1
    let n3 := abbreviationPairs.foldl (fun s p => replaceWord p.1 p.2 s) n2
    let n4 := jsTrim (collapseWs n3)
    stripTrailingPunct n4

-- ─── Data model (src/lib/agents/types.ts) ──────────────────────────

/-- `ScrapedProperty` from `src/lib/agents/types.ts`. Field order and
nullability follow the TypeScript interface; `rawData` is an opaque
payload modelled as an optional string. -/
@[ext] structure ScrapedProperty where
  sourceId : String
  source : String
  sourceUrl : Option String
  address : String
  city : String
  state : String
  zip : String
  county : String
  latitude : Option ℤ
  longitude : Option ℤ
  propertyType : String
  bedrooms : Option ℤ
  bathrooms : Option ℤ
  sqft : Option ℤ
  lotSize : Option ℤ
  yearBuilt : Option ℤ
  listPrice : Option ℤ
  estimatedValue : Option ℤ
  zestimate : Option ℤ
  arvEstimate : Option ℤ
  lastSalePrice : Option ℤ
  lastSaleDate : Option String
  loanBalance : Option ℤ
  equityEstimate : Option ℤ
  ownerName : Option String
  ownerOccupied : Bool
  distressTypes : List String
  scrapedAt : String
  rawData : Option String
deriving DecidableEq

/-- `AgentError` from `src/lib/agents/types.ts`. -/
@[ext] structure AgentError where
  message : String
  code : Option String
  url : Option String
  timestamp : String
deriving DecidableEq

/-- `AgentResult` from `src/lib/agents/types.ts`. -/
@[ext] structure AgentResult where
  agent : String
  properties : List ScrapedProperty
  errors : List AgentError
  durationMs : ℤ
  requestCount : ℤ
deriving DecidableEq

/-- Search criteria consumed by `runSearch` (`SearchParams` in
`src/types`); only the fields the orchestrator reads are modelled, all
optional because the orchestrator defends each access. -/
structure SearchParams where
  city : Option String
  state : Option String
  distressTypes : Option (List String)
  minPrice : Option ℤ
  maxPrice : Option ℤ
  minEquity : Option ℤ
  source : Option String
deriving DecidableEq

/-- `OrchestratorResult` from `src/lib/agents/orchestrator.ts`. -/
structure OrchestratorResult where
  totalFound : Nat
  totalAfterDedup : Nat
  totalEnriched : Nat
  totalSaved : Nat
  agentResults : List AgentResult
  errors : List AgentError
  durationMs : ℤ
deriving DecidableEq

-- ─── Merge and deduplication (src/lib/agents/orchestrator.ts) ──────

/-- JS `Set` built from a concatenation, read back with `Array.from`:
keeps the first occurrence of each element, in order. `seen` is the set
of elements already emitted. -/
def dedupFirstSeen (seen : List String) : List String → List String
  | [] => []
  | x :: xs =>
    if x ∈ seen then dedupFirstSeen seen xs
    else x :: dedupFirstSeen (x :: seen) xs

/-- `mergeProperties` from `src/lib/agents/orchestrator.ts`: start from a
copy of `base`; for each field of the `fields` array that is `null` in
the copy and non-null in `incoming`, take the incoming value (`county`
and `propertyType` appear in the `fields` array but have non-nullable
type `string`, so the `== null` test never fires for them and the base
value is always kept); union the distress types through a `Set`; append
`incoming.source` when it is truthy and differs from the current merged
source string. -/
def mergeProperties (base incoming : ScrapedProperty) : ScrapedProperty :=
  { base with
    sourceUrl := firstNonNull base.sourceUrl incoming.sourceUrl
    latitude := firstNonNull base.latitude incoming.latitude
    longitude := firstNonNull base.longitude incoming.longitude
    bedrooms := firstNonNull base.bedrooms incoming.bedrooms
    bathrooms := firstNonNull base.bathrooms incoming.bathrooms
    sqft := firstNonNull base.sqft incoming.sqft
    lotSize := firstNonNull base.lotSize incoming.lotSize
    yearBuilt := firstNonNull base.yearBuilt incoming.yearBuilt
    listPrice := firstNonNull base.listPrice incoming.listPrice
    estimatedValue := firstNonNull base.estimatedValue incoming.estimatedValue
    zestimate := firstNonNull base.zestimate incoming.zestimate
    arvEstimate := firstNonNull base.arvEstimate incoming.arvEstimate
    lastSalePrice := firstNonNull base.lastSalePrice incoming.lastSalePrice
    lastSaleDate := firstNonNull base.lastSaleDate incoming.lastSaleDate
    loanBalance := firstNonNull base.loanBalance incoming.loanBalance
    equityEstimate := firstNonNull base.equityEstimate incoming.equityEstimate
    ownerName := firstNonNull base.ownerName incoming.ownerName
    distressTypes := dedupFirstSeen [] (base.distressTypes ++ incoming.distressTypes)
    source :=
      if incoming.source ≠ "" ∧ incoming.source ≠ base.source
      then base.source ++ "," ++ incoming.source
      else base.source }

/-- The deduplication key: `normalizeAddress` of the combined
`"{address}, {city}, {state} {zip}"` string. -/
def dedupKey (p : ScrapedProperty) : String :=
  normalizeAddress (p.address ++ ", " ++ p.city ++ ", " ++ p.state ++ " " ++ p.zip)

/-- One `Map.set` on the insertion-ordered dedup map: update (merge) in
place when the key is present, append otherwise. Entries keyed `none`
model the fresh `__unknown_` placeholder keys, which never collide. -/
def dedupInsert (key : String) (p : ScrapedProperty) :
    List (Option String × ScrapedProperty) → List (Option String × ScrapedProperty)
  | [] => [(some key, p)]
  | (k, v) :: rest =>
    if k = some key then (k, mergeProperties v p) :: rest
    else (k, v) :: dedupInsert key p rest

/-- One iteration of the `deduplicateProperties` loop. -/
def dedupStep (acc : List (Option String × ScrapedProperty)) (prop : ScrapedProperty) :
    List (Option String × ScrapedProperty) :=
  let key := dedupKey prop
  if key = "" ∨ key.length < 5 then acc ++ [(none, prop)]
  else dedupInsert key prop acc

/-- `deduplicateProperties` from `src/lib/agents/orchestrator.ts`: fold
the records through the insertion-ordered map and return its values. -/
def deduplicateProperties (properties : List ScrapedProperty) : List ScrapedProperty :=
  (properties.foldl dedupStep []).map Prod.snd

-- ─── Enrichment steps (src/lib/agents/enricher.ts) ─────────────────

/-- `estimateARV` from `src/lib/agents/enricher.ts`: skipped when
`arvEstimate` is truthy; otherwise prefer `Math.round(zestimate * 1.1)`,
else `Math.round(estimatedValue * 1.1)`, else
`Math.round(listPrice * 1.3)`, else leave the record unchanged. -/
def estimateARV (p : ScrapedProperty) : ScrapedProperty :=
  if jsTruthyNum p.arvEstimate then p
  else if jsTruthyNum p.zestimate then
    { p with arvEstimate := some (jsRoundDiv (p.zestimate.getD 0 * 11) 10) }
  else if jsTruthyNum p.estimatedValue then
    { p with arvEstimate := some (jsRoundDiv (p.estimatedValue.getD 0 * 11) 10) }
  else if jsTruthyNum p.listPrice then
    { p with arvEstimate := some (jsRoundDiv (p.listPrice.getD 0 * 13) 10) }
  else p

/-- `calculateEquity` from `src/lib/agents/enricher.ts`:
`value = zestimate ?? estimatedValue`; when `value` and `loanBalance`
are both truthy, set `equityEstimate = Math.round(value - loanBalance)`
(there is no check of the current `equityEstimate`). -/
def calculateEquity (p : ScrapedProperty) : ScrapedProperty :=
  let value := firstNonNull p.zestimate p.estimatedValue
  if jsTruthyNum value ∧ jsTruthyNum p.loanBalance then
    { p with equityEstimate := some (jsRoundDiv (value.getD 0 - p.loanBalance.getD 0) 1) }
  else p

-- ─── Orchestrator (src/lib/agents/orchestrator.ts) ─────────────────

/-- The error object built by the city/state validation guard. -/
def validationError (ts : String) : AgentError :=
  { message := "City and state are required for search", code := none, url := none, timestamp := ts }

/-- Settled agent outcomes: a fulfilled promise carries its
`AgentResult`, a rejected one its stringified reason. -/
abbrev SettledAgent := Except String AgentResult

/-- The `agentResults` list built by the all-settled loop: the fulfilled
results in order. -/
def fulfilledResults (settled : List SettledAgent) : List AgentResult :=
  settled.filterMap (fun r => r.toOption)

/-- The `allProperties` list built by the all-settled loop: fulfilled
agents contribute their property lists, rejected agents contribute
nothing. -/
def settledProperties (settled : List SettledAgent) : List ScrapedProperty :=
  settled.flatMap (fun r => match r with | .ok a => a.properties | .error _ => [])

/-- The errors accumulated by the all-settled loop, in loop order: a
fulfilled agent contributes its own error list, a rejected agent
contributes exactly one synthetic error. -/
def settledErrors (settled : List SettledAgent) (ts : String) : List AgentError :=
  settled.flatMap (fun r =>
    match r with
    | .ok a => a.errors
    | .error reason =>
      [{ message := "Agent failed entirely: " ++ reason, code := none, url := none, timestamp := ts }])

/-- Step 4 of `runSearch`: the price filter, applied only when
`params.minPrice || params.maxPrice` is truthy; a record's price is
`listPrice ?? estimatedValue ?? 0`, the bounds are `minPrice ?? 0` and
`maxPrice ?? Infinity` (no upper test when `maxPrice` is nullish). -/
def priceFilterStep (params : SearchParams) (ps : List ScrapedProperty) : List ScrapedProperty :=
  if jsTruthyNum params.minPrice || jsTruthyNum params.maxPrice then
    ps.filter (fun p =>
      let price := (firstNonNull p.listPrice p.estimatedValue).getD 0
      decide (params.minPrice.getD 0 ≤ price) &&
        (match params.maxPrice with
         | none => true
         | some mx => decide (price ≤ mx)))
  else ps

/-- Step 5 of `runSearch`: the awaited `enrichProperties` call inside
`try`/`catch`; when the call throws, the unenriched list is kept and one
error is recorded. -/
def enrichOutcome (enrich : List ScrapedProperty → Except String (List ScrapedProperty))
    (ps : List ScrapedProperty) (ts : String) : List ScrapedProperty × List AgentError :=
  match enrich ps with
  | .ok enriched => (enriched, [])
  | .error msg =>
    (ps, [{ message := "Enrichment failed: " ++ msg, code := none, url := none, timestamp := ts }])

/-- Step 6 of `runSearch`: the equity filter, applied only when
`params.minEquity && params.minEquity > 0`; keeps records with a
non-null `equityEstimate` at or above `minEquity ?? 0`. -/
def equityFilterStep (params : SearchParams) (ps : List ScrapedProperty) : List ScrapedProperty :=
  match params.minEquity with
  | some m =>
    if m ≠ 0 ∧ 0 < m then
      ps.filter (fun p =>
        match p.equityEstimate with
        | none => false
        | some e => decide (m ≤ e))
    else ps
  | none => ps

/-- Step 7 of `runSearch`: the awaited `saveProperties` call inside
`try`/`catch`; when the call throws, `totalSaved` stays `0` and one
error is recorded. -/
def saveOutcome (save : List ScrapedProperty → Except String Nat)
    (ps : List ScrapedProperty) (ts : String) : Nat × List AgentError :=
  match save ps with
  | .ok n => (n, [])
  | .error msg =>
    (0, [{ message := "Failed to save properties: " ++ msg, code := none, url := none, timestamp := ts }])

/-- `runSearch` from `src/lib/agents/orchestrator.ts`, with the
asynchronous environment abstracted: `settled` is the list of
`Promise.allSettled` outcomes of the selected agents, `enrich` and
`save` are the enrichment and persistence collaborators (`.error`
modelling a thrown exception), `ts` stands for the timestamps taken
during the run and `dur` for the measured wall-clock duration. The
function is total: the model never throws to its caller. -/
def runSearch (params : SearchParams) (settled : List SettledAgent)
    (enrich : List ScrapedProperty → Except String (List ScrapedProperty))
    (save : List ScrapedProperty → Except String Nat)
    (ts : String) (dur : ℤ) : OrchestratorResult :=
  let city := params.city.getD ""
  let state := params.state.getD ""
  if city = "" ∨ state = "" then
    { totalFound := 0, totalAfterDedup := 0, totalEnriched := 0, totalSaved := 0,
      agentResults := [], errors := [validationError ts], durationMs := dur }
  else
    let allProperties := settledProperties settled
    let deduped := deduplicateProperties allProperties
    let filtered := priceFilterStep params deduped
    let eo := enrichOutcome enrich filtered ts
    let survivors := equityFilterStep params eo.1
    let so := saveOutcome save survivors ts
    { totalFound := allProperties.length, totalAfterDedup := deduped.length,
      totalEnriched := survivors.length, totalSaved := so.1,
      agentResults := fulfilledResults settled,
      errors := settledErrors settled ts ++ eo.2 ++ so.2,
      durationMs := dur }

-- ─── Spec-side vocabulary for the merge properties ─────────────────

/-- The seventeen nullable scalar fields of the merge field list (the
non-nullable `county` and `propertyType` cannot be null in either
record). Holds when no field is non-null in both records. -/
abbrev disjointScalarFields (a b : ScrapedProperty) : Prop :=
  (a.sourceUrl = none ∨ b.sourceUrl = none) ∧
  (a.latitude = none ∨ b.latitude = none) ∧
  (a.longitude = none ∨ b.longitude = none) ∧
  (a.bedrooms = none ∨ b.bedrooms = none) ∧
  (a.bathrooms = none ∨ b.bathrooms = none) ∧
  (a.sqft = none ∨ b.sqft = none) ∧
  (a.lotSize = none ∨ b.lotSize = none) ∧
  (a.yearBuilt = none ∨ b.yearBuilt = none) ∧
  (a.listPrice = none ∨ b.listPrice = none) ∧
  (a.estimatedValue = none ∨ b.estimatedValue = none) ∧
  (a.zestimate = none ∨ b.zestimate = none) ∧
  (a.arvEstimate = none ∨ b.arvEstimate = none) ∧
  (a.lastSalePrice = none ∨ b.lastSalePrice = none) ∧
  (a.lastSaleDate = none ∨ b.lastSaleDate = none) ∧
  (a.loanBalance = none ∨ b.loanBalance = none) ∧
  (a.equityEstimate = none ∨ b.equityEstimate = none) ∧
  (a.ownerName = none ∨ b.ownerName = none)

/-- The two records agree on every nullable scalar field of the merge
field list. -/
abbrev scalarFieldsAgree (p q : ScrapedProperty) : Prop :=
  p.sourceUrl = q.sourceUrl ∧ p.latitude = q.latitude ∧ p.longitude = q.longitude ∧
  p.bedrooms = q.bedrooms ∧ p.bathrooms = q.bathrooms ∧ p.sqft = q.sqft ∧
  p.lotSize = q.lotSize ∧ p.yearBuilt = q.yearBuilt ∧ p.listPrice = q.listPrice ∧
  p.estimatedValue = q.estimatedValue ∧ p.zestimate = q.zestimate ∧
  p.arvEstimate = q.arvEstimate ∧ p.lastSalePrice = q.lastSalePrice ∧
  p.lastSaleDate = q.lastSaleDate ∧ p.loanBalance = q.loanBalance ∧
  p.equityEstimate = q.equityEstimate ∧ p.ownerName = q.ownerName

/-- First-non-null-wins, per field: a non-null base value is never
overwritten (the merged value is the base value), and a null base value
is filled with the incoming value. `m` stands for the merged record. -/
abbrev scalarFillLaw (a b m : ScrapedProperty) : Prop :=
  ((a.sourceUrl ≠ none → m.sourceUrl = a.sourceUrl) ∧ (a.sourceUrl = none → m.sourceUrl = b.sourceUrl)) ∧
  ((a.latitude ≠ none → m.latitude = a.latitude) ∧ (a.latitude = none → m.latitude = b.latitude)) ∧
  ((a.longitude ≠ none → m.longitude = a.longitude) ∧ (a.longitude = none → m.longitude = b.longitude)) ∧
  ((a.bedrooms ≠ none → m.bedrooms = a.bedrooms) ∧ (a.bedrooms = none → m.bedrooms = b.bedrooms)) ∧
  ((a.bathrooms ≠ none → m.bathrooms = a.bathrooms) ∧ (a.bathrooms = none → m.bathrooms = b.bathrooms)) ∧
  ((a.sqft ≠ none → m.sqft = a.sqft) ∧ (a.sqft = none → m.sqft = b.sqft)) ∧
  ((a.lotSize ≠ none → m.lotSize = a.lotSize) ∧ (a.lotSize = none → m.lotSize = b.lotSize)) ∧
  ((a.yearBuilt ≠ none → m.yearBuilt = a.yearBuilt) ∧ (a.yearBuilt = none → m.yearBuilt = b.yearBuilt)) ∧
  ((a.listPrice ≠ none → m.listPrice = a.listPrice) ∧ (a.listPrice = none → m.listPrice = b.listPrice)) ∧
  ((a.estimatedValue ≠ none → m.estimatedValue = a.estimatedValue) ∧ (a.estimatedValue = none → m.estimatedValue = b.estimatedValue)) ∧
  ((a.zestimate ≠ none → m.zestimate = a.zestimate) ∧ (a.zestimate = none → m.zestimate = b.zestimate)) ∧
  ((a.arvEstimate ≠ none → m.arvEstimate = a.arvEstimate) ∧ (a.arvEstimate = none → m.arvEstimate = b.arvEstimate)) ∧
  ((a.lastSalePrice ≠ none → m.lastSalePrice = a.lastSalePrice) ∧ (a.lastSalePrice = none → m.lastSalePrice = b.lastSalePrice)) ∧
  ((a.lastSaleDate ≠ none → m.lastSaleDate = a.lastSaleDate) ∧ (a.lastSaleDate = none → m.lastSaleDate = b.lastSaleDate)) ∧
  ((a.loanBalance ≠ none → m.loanBalance = a.loanBalance) ∧ (a.loanBalance = none → m.loanBalance = b.loanBalance)) ∧
  ((a.equityEstimate ≠ none → m.equityEstimate = a.equityEstimate) ∧ (a.equityEstimate = none → m.equityEstimate = b.equityEstimate)) ∧
  ((a.ownerName ≠ none → m.ownerName = a.ownerName) ∧ (a.ownerName = none → m.ownerName = b.ownerName))

-- ─── Concrete test records ─────────────────────────────────────────

/-- `emptyScrapedProperty` from `src/lib/agents/types.ts`; `now` stands
for the `new Date().toISOString()` value taken at call time. -/
def emptyScrapedProperty (source now : String) : ScrapedProperty :=
  { sourceId := "", source := source, sourceUrl := none,
    address := "", city := "", state := "", zip := "", county := "",
    latitude := none, longitude := none, propertyType := "single-family",
    bedrooms := none, bathrooms := none, sqft := none, lotSize := none, yearBuilt := none,
    listPrice := none, estimatedValue := none, zestimate := none, arvEstimate := none,
    lastSalePrice := none, lastSaleDate := none, loanBalance := none, equityEstimate := none,
    ownerName := none, ownerOccupied := false, distressTypes := [], scrapedAt := now,
    rawData := none }

/-- A Zillow record with a long-form street address. -/
def propMainStFull : ScrapedProperty :=
  { emptyScrapedProperty "zillow" "t0" with
    address := "123 North Main Street, Apt 4B", city := "Phoenix", state := "AZ", zip := "85001",
    bedrooms := some 3 }

/-- An ATTOM record for the same property with an abbreviated address. -/
def propMainStAbbr : ScrapedProperty :=
  { emptyScrapedProperty "attom" "t1" with
    address := "123 N MAIN ST", city := "Phoenix", state := "AZ", zip := "85001",
    loanBalance := some 200000 }

/-- A second Zillow record for the same property. -/
def propMainStZillow2 : ScrapedProperty :=
  { emptyScrapedProperty "zillow" "t2" with
    address := "123 N MAIN ST", city := "Phoenix", state := "AZ", zip := "85001" }

/-- A record with an empty street address but full city, state and zip. -/
def propEmptyStreet : ScrapedProperty :=
  { emptyScrapedProperty "zillow" "t0" with
    city := "Phoenix", state := "AZ", zip := "85001" }

/-- A record with every address component empty: its dedup key is the
two-character remnant of the separators, below the minimum length. -/
def propAllEmpty : ScrapedProperty := emptyScrapedProperty "county-records" "t0"

/-- Record carrying a zestimate and an owner name only. -/
def propZestimateOnly : ScrapedProperty :=
  { emptyScrapedProperty "zillow" "t0" with
    zestimate := some 150000, ownerName := some "Jane Roe" }

/-- Record carrying a list price only. -/
def propListPriceOnly : ScrapedProperty :=
  { emptyScrapedProperty "attom" "t1" with listPrice := some 100000 }

/-- Record with a duplicate-free distress-type set. -/
def propDistressed : ScrapedProperty :=
  { emptyScrapedProperty "county-records" "t0" with
    distressTypes := ["Pre-Foreclosure", "NOD"], ownerName := some "John Doe" }

/-- Record that already carries an equity estimate next to a value and a
loan balance. -/
def propEquityFilled : ScrapedProperty :=
  { emptyScrapedProperty "attom" "t0" with
    zestimate := some 150000, loanBalance := some 100000, equityEstimate := some 999 }

/-- An underwater property: loan balance above the zestimate. -/
def propUnderwater : ScrapedProperty :=
  { emptyScrapedProperty "attom" "t0" with
    zestimate := some 150000, loanBalance := some 200000 }

/-- Record with a zestimate and a list price, no ARV yet. -/
def propZestimateAndList : ScrapedProperty :=
  { emptyScrapedProperty "zillow" "t0" with
    zestimate := some 200000, listPrice := some 100000 }

/-- Valid search parameters. -/
def paramsPhoenix : SearchParams :=
  { city := some "Phoenix", state := some "AZ", distressTypes := none,
    minPrice := none, maxPrice := none, minEquity := none, source := none }

/-- Search parameters with an empty city. -/
def paramsNoCity : SearchParams :=
  { city := some "", state := some "AZ", distressTypes := none,
    minPrice := none, maxPrice := none, minEquity := none, source := none }

/-- An enrichment collaborator that succeeds and changes nothing. -/
def okEnrich : List ScrapedProperty → Except String (List ScrapedProperty) :=
  fun ps => Except.ok ps

/-- A persistence collaborator that saves every record. -/
def okSave : List ScrapedProperty → Except String Nat :=
  fun ps => Except.ok ps.length

/-- A healthy settled agent outcome carrying the given records. -/
def healthyAgent (name : String) (ps : List ScrapedProperty) : SettledAgent :=
  Except.ok { agent := name, properties := ps, errors := [], durationMs := 10, requestCount := 1 }

/-- One rejected and three healthy settled agent outcomes, the spec's
partial-failure scenario. -/
def settledOneFailing : List SettledAgent :=
  [healthyAgent "zillow" [propMainStFull],
   Except.error "Error: network down",
   healthyAgent "attom" [propMainStAbbr],
   healthyAgent "foreclosure-sites" [propDistressed]]

-- ─── Helper lemmas ─────────────────────────────────────────────────

theorem firstNonNull_self {α : Type} (a : Option α) : firstNonNull a a = a := by
  cases a <;> rfl

theorem firstNonNull_eq_left {α : Type} {a : Option α} (b : Option α) (h : a ≠ none) :
    firstNonNull a b = a := by
  cases a with
  | none => exact absurd rfl h
  | some v => rfl

theorem fillLaw_pair {α : Type} (a b : Option α) :
    (a ≠ none → firstNonNull a b = a) ∧ (a = none → firstNonNull a b = b) := by
  refine ⟨fun h => firstNonNull_eq_left b h, fun h => ?_⟩
  subst h; rfl

theorem firstNonNull_disjoint_comm {α : Type} {a b : Option α} (h : a = none ∨ b = none) :
    firstNonNull a b = firstNonNull b a := by
  rcases h with h | h <;> subst h
  · cases b <;> rfl
  · cases a <;> rfl

theorem dedupFirstSeen_of_seen (seen m : List String) (h : ∀ x ∈ m, x ∈ seen) :
    dedupFirstSeen seen m = [] := by
  induction m with
  | nil => rfl
  | cons y ys ih =>
    rw [dedupFirstSeen, if_pos (h y (List.mem_cons_self y ys))]
    exact ih fun x hx => h x (List.mem_cons_of_mem y hx)

theorem dedupFirstSeen_keeps_nodup (l : List String) :
    ∀ (seen m : List String), l.Nodup → (∀ x ∈ l, x ∉ seen) →
      (∀ x ∈ m, x ∈ l ∨ x ∈ seen) → dedupFirstSeen seen (l ++ m) = l := by
  induction l with
  | nil =>
    intro seen m _ _ hm
    exact dedupFirstSeen_of_seen seen m fun x hx => (hm x hx).resolve_left (by simp)
  | cons x xs ih =>
    intro seen m hl hseen hm
    have hx : x ∉ seen := hseen x (List.mem_cons_self x xs)
    have hnodup := List.nodup_cons.mp hl
    rw [List.cons_append, dedupFirstSeen, if_neg hx]
    congr 1
    refine ih (x :: seen) m hnodup.2 ?_ ?_
    · intro y hy
      simp only [List.mem_cons, not_or]
      exact ⟨fun hyx => hnodup.1 (hyx ▸ hy), hseen y (List.mem_cons_of_mem x hy)⟩
    · intro y hy
      rcases hm y hy with h | h
      · rcases List.mem_cons.mp h with h | h
        · exact Or.inr (h ▸ List.mem_cons_self x seen)
        · exact Or.inl h
      · exact Or.inr (List.mem_cons_of_mem x h)

theorem dedupFirstSeen_self_append (l : List String) (h : l.Nodup) :
    dedupFirstSeen [] (l ++ l) = l :=
  dedupFirstSeen_keeps_nodup l [] l h (by simp) (fun x hx => Or.inl hx)

theorem settledProperties_length (s : List SettledAgent) :
    (settledProperties s).length =
      ((fulfilledResults s).map (fun a => a.properties.length)).sum := by
  induction s with
  | nil => rfl
  | cons r rs ih =>
    cases r with
    | ok a =>
      simp [settledProperties, fulfilledResults, Except.toOption] at ih ⊢
      exact ih
    | error e =>
      simp [settledProperties, fulfilledResults, Except.toOption] at ih ⊢
      exact ih

theorem jsRoundDiv_den_one (n : ℤ) : jsRoundDiv n 1 = n := by
  unfold jsRoundDiv
  rw [Int.fdiv_eq_ediv _ (by norm_num)]
  omega

theorem dedup_pair_same_key (a b : ScrapedProperty)
    (hk : dedupKey b = dedupKey a)
    (hl : ¬(dedupKey a = "" ∨ (dedupKey a).length < 5)) :
    deduplicateProperties [a, b] = [mergeProperties a b] := by
  simp [deduplicateProperties, dedupStep, dedupInsert, hk, hl]

theorem dedup_triple_same_key (a b c : ScrapedProperty)
    (hkb : dedupKey b = dedupKey a) (hkc : dedupKey c = dedupKey a)
    (hl : ¬(dedupKey a = "" ∨ (dedupKey a).length < 5)) :
    deduplicateProperties [a, b, c] = [mergeProperties (mergeProperties a b) c] := by
  simp [deduplicateProperties, dedupStep, dedupInsert, hkb, hkc, hl]

-- ─── Claim theorems ────────────────────────────────────────────────

/-- C2: merging two `ScrapedProperty` records obeys first-non-null-wins
on every nullable scalar field of the merge field list (a non-null base
value is never overwritten by a null incoming value, a null base field
is filled with the incoming non-null value), and for records whose
non-null scalar fields are disjoint, merging in either argument order
yields the same populated scalar fields. -/
theorem mergeProperties_first_non_null_wins (a b : ScrapedProperty) :
    scalarFillLaw a b (mergeProperties a b) ∧
      (disjointScalarFields a b →
        scalarFieldsAgree (mergeProperties a b) (mergeProperties b a)) := by
  constructor
  · exact ⟨fillLaw_pair _ _, fillLaw_pair _ _, fillLaw_pair _ _, fillLaw_pair _ _,
      fillLaw_pair _ _, fillLaw_pair _ _, fillLaw_pair _ _, fillLaw_pair _ _,
      fillLaw_pair _ _, fillLaw_pair _ _, fillLaw_pair _ _, fillLaw_pair _ _,
      fillLaw_pair _ _, fillLaw_pair _ _, fillLaw_pair _ _, fillLaw_pair _ _,
      fillLaw_pair _ _⟩
  · intro hd
    obtain ⟨h1, h2, h3, h4, h5, h6, h7, h8, h9, h10, h11, h12, h13, h14, h15, h16, h17⟩ := hd
    exact ⟨firstNonNull_disjoint_comm h1, firstNonNull_disjoint_comm h2,
      firstNonNull_disjoint_comm h3, firstNonNull_disjoint_comm h4,
      firstNonNull_disjoint_comm h5, firstNonNull_disjoint_comm h6,
      firstNonNull_disjoint_comm h7, firstNonNull_disjoint_comm h8,
      firstNonNull_disjoint_comm h9, firstNonNull_disjoint_comm h10,
      firstNonNull_disjoint_comm h11, firstNonNull_disjoint_comm h12,
      firstNonNull_disjoint_comm h13, firstNonNull_disjoint_comm h14,
      firstNonNull_disjoint_comm h15, firstNonNull_disjoint_comm h16,
      firstNonNull_disjoint_comm h17⟩

/-- Witness for C2 at two concrete records with disjoint non-null
fields. -/
theorem mergeProperties_first_non_null_wins_witness :
    disjointScalarFields propZestimateOnly propListPriceOnly ∧
      scalarFieldsAgree (mergeProperties propZestimateOnly propListPriceOnly)
        (mergeProperties propListPriceOnly propZestimateOnly) :=
  ⟨by decide,
   (mergeProperties_first_non_null_wins propZestimateOnly propListPriceOnly).2 (by decide)⟩

/-- C8: merging a record whose distress-type list is duplicate-free with
itself yields the record unchanged, field for field. -/
theorem mergeProperties_self_idempotent (a : ScrapedProperty)
    (h : a.distressTypes.Nodup) : mergeProperties a a = a := by
  have hdt := dedupFirstSeen_self_append a.distressTypes h
  unfold mergeProperties
  apply ScrapedProperty.ext <;> simp [firstNonNull_self, hdt]

/-- Witness for C8 at a concrete record with two distinct distress
tags. -/
theorem mergeProperties_self_idempotent_witness :
    propDistressed.distressTypes.Nodup ∧
      mergeProperties propDistressed propDistressed = propDistressed :=
  ⟨by decide, mergeProperties_self_idempotent propDistressed (by decide)⟩

/-- C10: the merge keeps the base record's address, city, state, zip,
sourceId, scrapedAt, ownerOccupied and rawData exactly unchanged,
whatever the incoming record holds. -/
theorem mergeProperties_frame (a b : ScrapedProperty) :
    (mergeProperties a b).address = a.address ∧ (mergeProperties a b).city = a.city ∧
    (mergeProperties a b).state = a.state ∧ (mergeProperties a b).zip = a.zip ∧
    (mergeProperties a b).sourceId = a.sourceId ∧
    (mergeProperties a b).scrapedAt = a.scrapedAt ∧
    (mergeProperties a b).ownerOccupied = a.ownerOccupied ∧
    (mergeProperties a b).rawData = a.rawData :=
  ⟨rfl, rfl, rfl, rfl, rfl, rfl, rfl, rfl⟩

set_option maxHeartbeats 16000000 in
/-- C3: the addresses `"123 North Main Street, Apt 4B"` and
`"123 N MAIN ST"` with identical city, state and zip normalize to the
same deduplication key, and the two records merge into a single output
record. -/
theorem dedupKey_deterministic_main_st :
    normalizeAddress "123 North Main Street, Apt 4B, Phoenix, AZ 85001" =
      normalizeAddress "123 N MAIN ST, Phoenix, AZ 85001" ∧
    dedupKey propMainStFull = dedupKey propMainStAbbr ∧
    deduplicateProperties [propMainStFull, propMainStAbbr] =
      [mergeProperties propMainStFull propMainStAbbr] ∧
    (deduplicateProperties [propMainStFull, propMainStAbbr]).length = 1 := by
  have hpair := dedup_pair_same_key propMainStFull propMainStAbbr (by decide) (by decide)
  exact ⟨by decide, by decide, hpair, by rw [hpair]; rfl⟩

/-- Counterexample to C4 as stated: two identical records with an empty
street address but non-empty city, state and zip produce the same
19-character dedup key, merge, and only one record appears in the
output. -/
theorem empty_street_records_do_merge :
    propEmptyStreet.address = "" ∧
    propEmptyStreet.city = "Phoenix" ∧ propEmptyStreet.state = "AZ" ∧
    propEmptyStreet.zip = "85001" ∧
    (deduplicateProperties [propEmptyStreet, propEmptyStreet]).length = 1 := by
  decide

/-- C4 as amended: records whose combined normalized key (street, city,
state and zip together) is empty or shorter than five characters bypass
deduplication entirely: they are never merged and both appear in the
output. -/
theorem sparse_key_records_bypass_dedup (p q : ScrapedProperty)
    (hp : dedupKey p = "" ∨ (dedupKey p).length < 5)
    (hq : dedupKey q = "" ∨ (dedupKey q).length < 5) :
    deduplicateProperties [p, q] = [p, q] := by
  simp [deduplicateProperties, dedupStep, hp, hq]

/-- Witness for the amended C4 at a record with every address component
empty. -/
theorem sparse_key_records_bypass_dedup_witness :
    (dedupKey propAllEmpty = "" ∨ (dedupKey propAllEmpty).length < 5) ∧
      deduplicateProperties [propAllEmpty, propAllEmpty] = [propAllEmpty, propAllEmpty] :=
  ⟨by decide, sparse_key_records_bypass_dedup propAllEmpty propAllEmpty (by decide) (by decide)⟩

set_option maxHeartbeats 16000000 in
/-- Counterexample to C5 as stated: three records under one key from
sources zillow, attom and zillow again produce the comma-joined source
`"zillow,attom,zillow"`, in which the name `"zillow"` occurs twice. -/
theorem merged_source_can_repeat :
    (deduplicateProperties [propMainStFull, propMainStAbbr, propMainStZillow2]).map
        (fun p => p.source) = ["zillow,attom,zillow"] ∧
    "zillow,attom,zillow" = "zillow" ++ "," ++ "attom" ++ "," ++ "zillow" := by
  have h3 := dedup_triple_same_key propMainStFull propMainStAbbr propMainStZillow2
    (by decide) (by decide) (by decide)
  refine ⟨?_, rfl⟩
  rw [h3]
  decide

/-- C5 as amended: when exactly two records merge under one
deduplication key, the merged source is the base source followed by a
comma and the incoming source whenever the incoming source is non-empty
and differs from the base's whole source string — the ordered,
duplicate-free first-seen union for two contributors. (With three or
more contributors a name can repeat, because the code only compares the
incoming source against the entire current merged string; see the
counterexample.) -/
theorem merged_source_ordered_union_of_two (a b : ScrapedProperty)
    (hkey : dedupKey b = dedupKey a)
    (hlong : ¬(dedupKey a = "" ∨ (dedupKey a).length < 5))
    (hne : b.source ≠ "") (hnes : b.source ≠ a.source) :
    (deduplicateProperties [a, b]).map (fun p => p.source) =
      [a.source ++ "," ++ b.source] := by
  simp [deduplicateProperties, dedupStep, dedupInsert, mergeProperties, hkey, hlong, hne, hnes]

set_option maxHeartbeats 16000000 in
/-- Witness for the amended C5 at two records of one address from
distinct sources. -/
theorem merged_source_ordered_union_of_two_witness :
    dedupKey propMainStAbbr = dedupKey propMainStFull ∧
      (deduplicateProperties [propMainStFull, propMainStAbbr]).map (fun p => p.source) =
        [propMainStFull.source ++ "," ++ propMainStAbbr.source] :=
  ⟨by decide,
   merged_source_ordered_union_of_two propMainStFull propMainStAbbr
     (by decide) (by decide) (by decide) (by decide)⟩

/-- Counterexample to C6 as stated: `calculateEquity` carries no check
of the current `equityEstimate`; a record whose `equityEstimate` is
already populated with 999 is overwritten with the freshly computed
value. -/
theorem calculateEquity_overwrites_existing :
    propEquityFilled.equityEstimate = some 999 ∧
    (calculateEquity propEquityFilled).equityEstimate = some 50000 := by
  decide

/-- C6 as amended: whenever `value` (zestimate preferred over
estimatedValue by nullish coalescing) and `loanBalance` are both truthy
(non-null and non-zero), the equity step sets
`equityEstimate = round(value − loanBalance)` — regardless of any
existing `equityEstimate` — and the rounded integer difference is the
exact difference, never floored at zero or nulled when negative. -/
theorem calculateEquity_sets_difference (p : ScrapedProperty) (v lb : ℤ)
    (hv : firstNonNull p.zestimate p.estimatedValue = some v) (hv0 : v ≠ 0)
    (hlb : p.loanBalance = some lb) (hlb0 : lb ≠ 0) :
    (calculateEquity p).equityEstimate = some (v - lb) := by
  have : jsRoundDiv (v - lb) 1 = v - lb := jsRoundDiv_den_one (v - lb)
  simp [calculateEquity, jsTruthyNum, hv, hlb, hv0, hlb0, this]

/-- Witness for the amended C6 at the underwater property of the spec:
zestimate 150000, loan balance 200000, equity −50000. -/
theorem calculateEquity_sets_difference_witness :
    firstNonNull propUnderwater.zestimate propUnderwater.estimatedValue = some 150000 ∧
    propUnderwater.loanBalance = some 200000 ∧
    (calculateEquity propUnderwater).equityEstimate = some (-50000) :=
  ⟨by decide, by decide,
   (calculateEquity_sets_difference propUnderwater 150000 200000
      (by decide) (by decide) (by decide) (by decide)).trans (by decide)⟩

/-- C7: the ARV step leaves a record with a truthy `arvEstimate`
unchanged; on a record whose `arvEstimate` is empty (JS-falsy) it sets
`round(zestimate * 1.1)` when `zestimate` is present (truthy), else
`round(estimatedValue * 1.1)` when `estimatedValue` is present, else
`round(listPrice * 1.3)` when `listPrice` is present, and leaves the
record unchanged when none exist. -/
theorem estimateARV_fallback_chain (p : ScrapedProperty) :
    (jsTruthyNum p.arvEstimate = true → estimateARV p = p) ∧
    (jsTruthyNum p.arvEstimate = false →
      ((∀ z : ℤ, p.zestimate = some z → z ≠ 0 →
          (estimateARV p).arvEstimate = some (jsRoundDiv (z * 11) 10)) ∧
       (jsTruthyNum p.zestimate = false → ∀ ev : ℤ, p.estimatedValue = some ev → ev ≠ 0 →
          (estimateARV p).arvEstimate = some (jsRoundDiv (ev * 11) 10)) ∧
       (jsTruthyNum p.zestimate = false → jsTruthyNum p.estimatedValue = false →
          ∀ lp : ℤ, p.listPrice = some lp → lp ≠ 0 →
          (estimateARV p).arvEstimate = some (jsRoundDiv (lp * 13) 10)) ∧
       (jsTruthyNum p.zestimate = false → jsTruthyNum p.estimatedValue = false →
          jsTruthyNum p.listPrice = false → estimateARV p = p))) := by
  constructor
  · intro h
    simp [estimateARV, h]
  · intro harv
    refine ⟨?_, ?_, ?_, ?_⟩
    · intro z hz hz0
      have hzt : jsTruthyNum (some z) = true := by simp [jsTruthyNum, hz0]
      simp [estimateARV, harv, hz, hzt]
    · intro hzf ev hev hev0
      have hevt : jsTruthyNum (some ev) = true := by simp [jsTruthyNum, hev0]
      simp [estimateARV, harv, hzf, hev, hevt]
    · intro hzf hevf lp hlp hlp0
      have hlpt : jsTruthyNum (some lp) = true := by simp [jsTruthyNum, hlp0]
      simp [estimateARV, harv, hzf, hevf, hlp, hlpt]
    · intro hzf hevf hlpf
      simp [estimateARV, harv, hzf, hevf, hlpf]

/-- C1: with valid city and state, the orchestrator consumes the settled
outcome of every selected agent: the fulfilled agents' envelopes appear
unaffected in `agentResults`, `totalFound` is the sum of the fulfilled
agents' property-list lengths, and the error list is exactly the
settled-loop errors — one synthetic `AgentError` per fully rejected
agent promise, which contributes zero properties — followed by the
enrichment- and persistence-stage errors. The model returns a result for
every environment, so nothing is thrown to the caller. -/
theorem runSearch_all_settled (params : SearchParams) (settled : List SettledAgent)
    (enrich : List ScrapedProperty → Except String (List ScrapedProperty))
    (save : List ScrapedProperty → Except String Nat) (ts : String) (dur : ℤ)
    (hc : params.city.getD "" ≠ "") (hs : params.state.getD "" ≠ "") :
    (runSearch params settled enrich save ts dur).agentResults = fulfilledResults settled ∧
    (runSearch params settled enrich save ts dur).totalFound =
      ((fulfilledResults settled).map (fun a => a.properties.length)).sum ∧
    (runSearch params settled enrich save ts dur).errors =
      settledErrors settled ts
        ++ (enrichOutcome enrich (priceFilterStep params
              (deduplicateProperties (settledProperties settled))) ts).2
        ++ (saveOutcome save (equityFilterStep params
              (enrichOutcome enrich (priceFilterStep params
                (deduplicateProperties (settledProperties settled))) ts).1) ts).2 := by
  have hcond : ¬(params.city.getD "" = "" ∨ params.state.getD "" = "") := not_or.mpr ⟨hc, hs⟩
  simp only [runSearch]
  rw [if_neg hcond]
  exact ⟨rfl, settledProperties_length settled, rfl⟩

/-- Witness for C1 in the spec's partial-failure scenario: one rejected
and three healthy agents. -/
theorem runSearch_all_settled_witness :
    (runSearch paramsPhoenix settledOneFailing okEnrich okSave "t9" 42).agentResults =
        fulfilledResults settledOneFailing ∧
    (runSearch paramsPhoenix settledOneFailing okEnrich okSave "t9" 42).totalFound =
      ((fulfilledResults settledOneFailing).map (fun a => a.properties.length)).sum ∧
    (runSearch paramsPhoenix settledOneFailing okEnrich okSave "t9" 42).errors =
      settledErrors settledOneFailing "t9"
        ++ (enrichOutcome okEnrich (priceFilterStep paramsPhoenix
              (deduplicateProperties (settledProperties settledOneFailing))) "t9").2
        ++ (saveOutcome okSave (equityFilterStep paramsPhoenix
              (enrichOutcome okEnrich (priceFilterStep paramsPhoenix
                (deduplicateProperties (settledProperties settledOneFailing))) "t9").1) "t9").2 :=
  runSearch_all_settled paramsPhoenix settledOneFailing okEnrich okSave "t9" 42
    (by decide) (by decide)

/-- C9: when city or state is missing or empty the orchestrator returns
immediately with zero counts and exactly one error — the result is a
fixed record that does not depend on the agent, enrichment or
persistence oracles, so no agent is consulted — and with both present
the pipeline proceeds (the fulfilled agents appear in `agentResults`),
so the city/state check is the only input-validation failure mode. -/
theorem runSearch_validation_gate (params : SearchParams) (settled : List SettledAgent)
    (enrich : List ScrapedProperty → Except String (List ScrapedProperty))
    (save : List ScrapedProperty → Except String Nat) (ts : String) (dur : ℤ) :
    ((params.city.getD "" = "" ∨ params.state.getD "" = "") →
      runSearch params settled enrich save ts dur =
        { totalFound := 0, totalAfterDedup := 0, totalEnriched := 0, totalSaved := 0,
          agentResults := [], errors := [validationError ts], durationMs := dur }) ∧
    (params.city.getD "" ≠ "" → params.state.getD "" ≠ "" →
      (runSearch params settled enrich save ts dur).agentResults = fulfilledResults settled) := by
  constructor
  · intro h
    simp only [runSearch]
    rw [if_pos h]
  · intro hc hs
    simp only [runSearch]
    rw [if_neg (not_or.mpr ⟨hc, hs⟩)]

/-- Witness for C9 at an empty city, a rejected agent oracle and the
standard enrichment and persistence oracles. -/
theorem runSearch_validation_gate_witness :
    runSearch paramsNoCity [Except.error "boom"] okEnrich okSave "t1" 5 =
      { totalFound := 0, totalAfterDedup := 0, totalEnriched := 0, totalSaved := 0,
        agentResults := [], errors := [validationError "t1"], durationMs := 5 } :=
  (runSearch_validation_gate paramsNoCity [Except.error "boom"] okEnrich okSave "t1" 5).1
    (Or.inl rfl)

/-- Witness for C7: a record with only a list price of 100000 gets ARV
130000, and a record with zestimate 200000 next to a list price gets
ARV 220000. -/
theorem estimateARV_fallback_chain_witness :
    (estimateARV propListPriceOnly).arvEstimate = some 130000 ∧
    (estimateARV propZestimateAndList).arvEstimate = some 220000 :=
  ⟨(((estimateARV_fallback_chain propListPriceOnly).2 (by decide)).2.2.1
      (by decide) (by decide) 100000 (by decide) (by decide)).trans (by decide),
   (((estimateARV_fallback_chain propZestimateAndList).2 (by decide)).1
      200000 (by decide) (by decide)).trans (by decide)⟩

end RealEstate
